import Mathlib

/-!
Shallow embedding of the `todo` module of the go-todo repository
(`todo/models.go`, `todo/repositories.go`, `todo/handlers.go`).

The database table behind gorm is modelled as a list of live rows plus the
next value of the serial primary-key sequence.  A gorm write
(`database.Create`, `database.Save`) may fail for reasons outside the
repository's code (connectivity, store rejection); that possibility is
modelled by an explicit `dbOk : Bool` argument standing for the success of
the underlying call.  Fiber request decoding is modelled at the value
level: an id path parameter is either a decimal integer or a string
`strconv.Atoi` rejects, and a JSON request body either fails to
deserialize or yields the three declared json fields, each possibly
omitted (Go's `encoding/json` leaves an omitted field at its zero value).
-/

set_option autoImplicit false

/-- The Todo entity (`todo/models.go`): `gorm.Model` supplies the integer
primary key; `Name`, `Description` and `Status` are the declared string
fields. -/
structure Todo where
  id : Int
  name : String
  description : String
  status : String
deriving Repr, DecidableEq

instance : Inhabited Todo :=
  ⟨{ id := 0, name := "", description := "", status := "" }⟩

/-- State of the todos table: the live rows and the next value of the
serial id sequence (1 on a freshly migrated table). -/
structure Store where
  rows : List Todo
  nextId : Int
deriving Repr, DecidableEq

/-- The freshly migrated, empty table. -/
def Store.empty : Store := { rows := [], nextId := 1 }

/-- The error values the embedded code can produce. -/
inductive Err
  /-- gorm's record-not-found error from a find that matches no row. -/
  | recordNotFound
  /-- the repository's own `errors.New ("Todo not found")`. -/
  | todoNotFound
  /-- a gorm write (`Create` / `Save`) returning an error. -/
  | writeFailed
  /-- a `strconv.Atoi` failure on the id path parameter. -/
  | atoiError
  /-- a fiber `BodyParser` failure on the request body. -/
  | bodyParseError
deriving Repr, DecidableEq

/-- `repository.database.Find (&todo, id)`: the row matching the primary
key, or the zero-value `Todo` together with gorm's record-not-found error
when no row matches. -/
def dbFind (s : Store) (id : Int) : Todo × Option Err :=
  match s.rows.find? (fun t => t.id == id) with
  | some t => (t, none)
  | none => (default, some Err.recordNotFound)

/-- `TodoRepository.Find` (`todo/repositories.go`): runs the underlying
find, then replaces the error with `"Todo not found"` whenever the
resulting `Todo` has a zero-value `Name` field. -/
def TodoRepository.Find (s : Store) (id : Int) : Todo × Option Err :=
  let r := dbFind s id
  if r.1.name = "" then (r.1, some Err.todoNotFound) else r

/-- `TodoRepository.FindAll` (`todo/repositories.go`): every live row. -/
def TodoRepository.FindAll (s : Store) : List Todo := s.rows

/-- `TodoRepository.Create` (`todo/repositories.go`):
`database.Create (&todo)` inserts the row with the next serial id when the
write succeeds, and returns the error (leaving the table unchanged)
otherwise. -/
def TodoRepository.Create (dbOk : Bool) (todo : Todo) (s : Store) :
    (Todo × Option Err) × Store :=
  if dbOk then
    let t := { todo with id := s.nextId }
    ((t, none), { rows := s.rows ++ [t], nextId := s.nextId + 1 })
  else
    ((todo, some Err.writeFailed), s)

/-- `TodoRepository.Save` (`todo/repositories.go`): `database.Save (user)`
inserts when the primary key is blank and otherwise updates every row
matching the primary key (a no-op when none matches); a failing write
changes nothing. -/
def TodoRepository.Save (dbOk : Bool) (user : Todo) (s : Store) :
    (Todo × Option Err) × Store :=
  if dbOk then
    if user.id == 0 then
      let t := { user with id := s.nextId }
      ((t, none), { rows := s.rows ++ [t], nextId := s.nextId + 1 })
    else
      ((user, none),
        { s with rows := s.rows.map (fun r => if r.id == user.id then user else r) })
  else
    ((user, some Err.writeFailed), s)

/-- `TodoRepository.Delete` (`todo/repositories.go`):
`database.Delete (&Todo \x7b\x7d, id)` removes every row matching the
primary key and reports `RowsAffected`. -/
def TodoRepository.Delete (s : Store) (id : Int) : Nat × Store :=
  ((s.rows.filter (fun t => t.id == id)).length,
    { s with rows := s.rows.filter (fun t => !(t.id == id)) })

/-- A JSON request body that deserializes into a Todo-shaped object: each
of the three declared json fields (`name`, `description`, `status`) may be
present or omitted. -/
structure TodoBody where
  name : Option String
  description : Option String
  status : Option String
deriving Repr, DecidableEq

/-- `c.BodyParser` decoding into `new (Todo)`: the target starts at the
zero value and decoding sets exactly the fields present in the JSON, so an
omitted field stays at the empty string (and the primary key at 0). -/
def TodoBody.decode (b : TodoBody) : Todo :=
  { id := 0
    name := b.name.getD ""
    description := b.description.getD ""
    status := b.status.getD "" }

/-- The id path parameter as seen by `strconv.Atoi`: either a decimal
integer, or a string `Atoi` rejects, for which it yields 0 together with
an error. -/
inductive IdParam
  | num (n : Int)
  | bad
deriving Repr, DecidableEq

/-- `strconv.Atoi (c.Params ("id"))`: the parsed value and the parse
error. -/
def IdParam.atoi : IdParam → Int × Option Err
  | .num n => (n, none)
  | .bad => (0, some Err.atoiError)

/-- The JSON payload a handler writes back. -/
inductive ResponseBody
  /-- `c.JSON (todo)`: a single Todo. -/
  | item (t : Todo)
  /-- `c.JSON (todos)`: the Todo collection. -/
  | items (ts : List Todo)
  /-- `c.JSON (fiber.Map \x7b...\x7d)`: an error envelope, carrying the
  error value when the map includes one. -/
  | errorEnvelope (e : Option Err)
  /-- `c.JSON (nil)`: no payload. -/
  | null
deriving Repr, DecidableEq

/-- An HTTP response: the status code and the JSON body. -/
structure Response where
  status : Nat
  body : ResponseBody
deriving Repr, DecidableEq

/-- `TodoHandler.GetAll` (`todo/handlers.go`): serializes
`repository.FindAll ()` with the default 200 status. -/
def TodoHandler.GetAll (s : Store) : Response :=
  { status := 200, body := .items (TodoRepository.FindAll s) }

/-- `TodoHandler.Get` (`todo/handlers.go`): parses the id — discarding the
`Atoi` error, which the next assignment to `err` overwrites — then runs
`repository.Find`; a find error yields 404 with an error envelope, success
yields 200 with the Todo. -/
def TodoHandler.Get (s : Store) (p : IdParam) : Response :=
  let id := p.atoi.1
  let r := TodoRepository.Find s id
  match r.2 with
  | some e => { status := 404, body := .errorEnvelope (some e) }
  | none => { status := 200, body := .item r.1 }

/-- `TodoHandler.Create` (`todo/handlers.go`): 500 when the body fails to
deserialize, 400 when `repository.Create` reports an error, otherwise 200
with the created item. -/
def TodoHandler.Create (dbOk : Bool) (s : Store) (body : Option TodoBody) :
    Response × Store :=
  match body with
  | none => ({ status := 500, body := .errorEnvelope (some Err.bodyParseError) }, s)
  | some b =>
    let r := TodoRepository.Create dbOk b.decode s
    match r.1.2 with
    | some e => ({ status := 400, body := .errorEnvelope (some e) }, r.2)
    | none => ({ status := 200, body := .item r.1.1 }, r.2)

/-- `TodoHandler.Update` (`todo/handlers.go`): 400 on an unparsable id,
404 (with an envelope carrying no error value) when `repository.Find`
fails, 400 when the body fails to deserialize; otherwise the three mutable
fields of the found row are overwritten from the decoded body and the
result is saved — 400 when the save fails, else 200 with the saved
item. -/
def TodoHandler.Update (dbOk : Bool) (s : Store) (p : IdParam)
    (body : Option TodoBody) : Response × Store :=
  match p.atoi.2 with
  | some e => ({ status := 400, body := .errorEnvelope (some e) }, s)
  | none =>
    let fr := TodoRepository.Find s p.atoi.1
    match fr.2 with
    | some _ => ({ status := 404, body := .errorEnvelope none }, s)
    | none =>
      match body with
      | none => ({ status := 400, body := .errorEnvelope (some Err.bodyParseError) }, s)
      | some b =>
        let todoData := b.decode
        let todo :=
          { fr.1 with
            name := todoData.name
            description := todoData.description
            status := todoData.status }
        let sr := TodoRepository.Save dbOk todo s
        match sr.1.2 with
        | some e => ({ status := 400, body := .errorEnvelope (some e) }, sr.2)
        | none => ({ status := 200, body := .item sr.1.1 }, sr.2)

/-- `TodoHandler.Delete` (`todo/handlers.go`): 400 on an unparsable id;
otherwise `repository.Delete` runs and the status is 204, downgraded to
400 when `RowsAffected` is 0, with `c.JSON (nil)` as the body. -/
def TodoHandler.Delete (s : Store) (p : IdParam) : Response × Store :=
  match p.atoi.2 with
  | some e => ({ status := 400, body := .errorEnvelope (some e) }, s)
  | none =>
    let r := TodoRepository.Delete s p.atoi.1
    let statusCode := if r.1 == 0 then 400 else 204
    ({ status := statusCode, body := .null }, r.2)

/-- Well-formedness of a table state reachable through the repository:
the id sequence starts at 1, every live row's system-assigned id is
positive and below the sequence value, and ids are unique. -/
def Store.WF (s : Store) : Prop :=
  1 ≤ s.nextId ∧ (∀ t ∈ s.rows, 1 ≤ t.id ∧ t.id < s.nextId) ∧
    (s.rows.map Todo.id).Nodup

instance (s : Store) : Decidable s.WF := by
  unfold Store.WF; infer_instance

/-- A sequence of repository `Create` calls whose underlying writes all
succeed. -/
def createSeq (s : Store) (ts : List Todo) : Store :=
  ts.foldl (fun st t => (TodoRepository.Create true t st).2) s

/-- The rows a successful create sequence appends: each input todo with
its system-assigned id, ids counting up from `n`. -/
def assignIds (n : Int) : List Todo → List Todo
  | [] => []
  | t :: ts => { t with id := n } :: assignIds (n + 1) ts

theorem dbFind_none {s : Store} {id : Int}
    (h : ∀ t ∈ s.rows, t.id ≠ id) :
    dbFind s id = (default, some Err.recordNotFound) := by
  unfold dbFind
  have hf : s.rows.find? (fun t => t.id == id) = none := by
    rw [List.find?_eq_none]
    intro t ht
    simpa using h t ht
  rw [hf]

theorem dbFind_some {s : Store} {id : Int} {t : Todo}
    (hf : s.rows.find? (fun r => r.id == id) = some t) :
    dbFind s id = (t, none) := by
  unfold dbFind
  rw [hf]

theorem default_todo_name : (default : Todo).name = "" := rfl

theorem find_not_found {s : Store} {id : Int}
    (h : ∀ t ∈ s.rows, t.id ≠ id) :
    TodoRepository.Find s id = (default, some Err.todoNotFound) := by
  unfold TodoRepository.Find
  rw [dbFind_none h]
  simp [default_todo_name]

theorem find_of_err_none {s : Store} {id : Int}
    (h : (TodoRepository.Find s id).2 = none) :
    s.rows.find? (fun r => r.id == id) = some (TodoRepository.Find s id).1 ∧
      (TodoRepository.Find s id).1.id = id ∧
      (TodoRepository.Find s id).1.name ≠ "" := by
  rcases hf : s.rows.find? (fun r => r.id == id) with - | t
  · have hdb : dbFind s id = (default, some Err.recordNotFound) := by
      unfold dbFind; rw [hf]
    have hfind : TodoRepository.Find s id = (default, some Err.todoNotFound) := by
      unfold TodoRepository.Find
      rw [hdb]
      simp [default_todo_name]
    rw [hfind] at h
    simp at h
  · have hdb : dbFind s id = (t, none) := dbFind_some hf
    have hid : t.id = id := by
      have := List.find?_some hf
      exact eq_of_beq (by simpa using this)
    by_cases hn : t.name = ""
    · exfalso
      have : TodoRepository.Find s id = (t, some Err.todoNotFound) := by
        unfold TodoRepository.Find
        rw [hdb]
        simp [hn]
      rw [this] at h
      simp at h
    · have hfind : TodoRepository.Find s id = (t, none) := by
        unfold TodoRepository.Find
        rw [hdb]
        simp [hn]
      rw [hfind]
      exact ⟨hf, hid, hn⟩

theorem find_err_cases (s : Store) (id : Int) :
    (TodoRepository.Find s id).2 = none ∨
      (TodoRepository.Find s id).2 = some Err.todoNotFound := by
  unfold TodoRepository.Find
  rcases hf : s.rows.find? (fun r => r.id == id) with - | t
  · rw [show dbFind s id = (default, some Err.recordNotFound) from by
      unfold dbFind; rw [hf]]
    simp [default_todo_name]
  · rw [dbFind_some hf]
    by_cases hn : t.name = "" <;> simp [hn]

theorem createSeq_nil (s : Store) : createSeq s [] = s := rfl

theorem createSeq_cons (s : Store) (t : Todo) (ts : List Todo) :
    createSeq s (t :: ts) =
      createSeq
        { rows := s.rows ++ [{ t with id := s.nextId }], nextId := s.nextId + 1 }
        ts := rfl

theorem createSeq_spec (ts : List Todo) : ∀ s : Store,
    (createSeq s ts).rows = s.rows ++ assignIds s.nextId ts ∧
      (createSeq s ts).nextId = s.nextId + ts.length := by
  induction ts with
  | nil => intro s; simp [createSeq_nil, assignIds]
  | cons t ts ih =>
    intro s
    rw [createSeq_cons]
    have h := ih { rows := s.rows ++ [{ t with id := s.nextId }], nextId := s.nextId + 1 }
    refine ⟨?_, ?_⟩
    · rw [h.1]
      simp [assignIds]
    · rw [h.2]
      simp
      ring

theorem assignIds_length (n : Int) (ts : List Todo) :
    (assignIds n ts).length = ts.length := by
  induction ts generalizing n with
  | nil => rfl
  | cons t ts ih => simp [assignIds, ih]

theorem mem_assignIds_lb {ts : List Todo} : ∀ {n : Int} {t : Todo},
    t ∈ assignIds n ts → n ≤ t.id := by
  induction ts with
  | nil => intro n t h; simp [assignIds] at h
  | cons u ts ih =>
    intro n t h
    rcases (by simpa [assignIds] using h) with h1 | h2
    · rw [h1]
    · have := ih h2
      omega

theorem mem_assignIds_name {ts : List Todo} (hn : ∀ u ∈ ts, u.name ≠ "") :
    ∀ {n : Int} {t : Todo}, t ∈ assignIds n ts → t.name ≠ "" := by
  induction ts with
  | nil => intro n t h; simp [assignIds] at h
  | cons u ts ih =>
    intro n t h
    rcases (by simpa [assignIds] using h) with h1 | h2
    · rw [h1]
      exact hn u (by simp)
    · exact ih (fun v hv => hn v (by simp [hv])) h2

theorem find?_assignIds {ts : List Todo} : ∀ {n : Int} {t : Todo},
    t ∈ assignIds n ts →
      (assignIds n ts).find? (fun r => r.id == t.id) = some t := by
  induction ts with
  | nil => intro n t h; simp [assignIds] at h
  | cons u ts ih =>
    intro n t h
    rcases (by simpa [assignIds] using h) with h1 | h2
    · rw [assignIds, h1]
      exact List.find?_cons_of_pos _ (by simp)
    · have hlb : n + 1 ≤ t.id := mem_assignIds_lb h2
      rw [assignIds]
      rw [List.find?_cons_of_neg _ (by simp; omega)]
      exact ih h2

/-- C1: as stated this fails. A create whose underlying write succeeds is
successful even when the submitted name is empty; listing then does return
exactly one item, but the created todo is not retrievable by its assigned
id 1 — `TodoRepository.Find` reports "Todo not found" because the row's
name is the zero value. -/
theorem c1_counterexample :
    (TodoRepository.Create true
        { id := 0, name := "", description := "", status := "" } Store.empty).1.2 = none ∧
    (TodoRepository.Create true
        { id := 0, name := "", description := "", status := "" } Store.empty).1.1.id = 1 ∧
    (TodoRepository.FindAll (TodoRepository.Create true
        { id := 0, name := "", description := "", status := "" } Store.empty).2).length = 1 ∧
    (TodoRepository.Find (TodoRepository.Create true
        { id := 0, name := "", description := "", status := "" } Store.empty).2 1).2 =
      some Err.todoNotFound := by
  decide

/-- C1 (amended): for every sequence of N successful create operations
starting from the empty store, each with a non-empty name, a subsequent
`FindAll` returns exactly N items — the created todos with their
system-assigned ids 1..N — and every one of them is retrieved by
`TodoRepository.Find` at its assigned id with no error. -/
theorem c1_create_then_list_and_find (ts : List Todo)
    (hn : ∀ t ∈ ts, t.name ≠ "") :
    (TodoRepository.FindAll (createSeq Store.empty ts)).length = ts.length ∧
    TodoRepository.FindAll (createSeq Store.empty ts) = assignIds 1 ts ∧
    ∀ t ∈ TodoRepository.FindAll (createSeq Store.empty ts),
      TodoRepository.Find (createSeq Store.empty ts) t.id = (t, none) := by
  have hs := createSeq_spec ts Store.empty
  have hrows : (createSeq Store.empty ts).rows = assignIds 1 ts := by
    have := hs.1
    simpa [Store.empty] using this
  have hall : TodoRepository.FindAll (createSeq Store.empty ts) = assignIds 1 ts := by
    rw [TodoRepository.FindAll, hrows]
  refine ⟨?_, hall, ?_⟩
  · rw [hall, assignIds_length]
  · intro t ht
    rw [hall] at ht
    have hf : (createSeq Store.empty ts).rows.find? (fun r => r.id == t.id) = some t := by
      rw [hrows]
      exact find?_assignIds ht
    have hname : t.name ≠ "" := mem_assignIds_name hn ht
    unfold TodoRepository.Find
    rw [dbFind_some hf]
    simp [hname]

/-- C1 (amended) witness at a concrete two-element create sequence. -/
theorem c1_create_then_list_and_find_witness :
    (TodoRepository.FindAll (createSeq Store.empty
        [{ id := 0, name := "a", description := "", status := "pending" },
         { id := 0, name := "b", description := "x", status := "done" }])).length = 2 := by
  have h := c1_create_then_list_and_find
    [{ id := 0, name := "a", description := "", status := "pending" },
     { id := 0, name := "b", description := "x", status := "done" }]
    (by decide)
  exact h.1

/-- C2: `TodoRepository.Find` yields the "Todo not found" error when no
row matches the id, and also when the matched row's name is the empty
string; a matched row with non-empty name yields no error — the decision
is the zero-value of the name field, not the row count. -/
theorem c2_find_zero_value_semantics (s : Store) (id : Int) :
    ((∀ t ∈ s.rows, t.id ≠ id) →
      (TodoRepository.Find s id).2 = some Err.todoNotFound) ∧
    (∀ t, s.rows.find? (fun r => r.id == id) = some t → t.name = "" →
      (TodoRepository.Find s id).2 = some Err.todoNotFound) ∧
    (∀ t, s.rows.find? (fun r => r.id == id) = some t → t.name ≠ "" →
      (TodoRepository.Find s id).2 = none) := by
  refine ⟨?_, ?_, ?_⟩
  · intro h
    rw [find_not_found h]
  · intro t hf hne
    unfold TodoRepository.Find
    rw [dbFind_some hf]
    simp [hne]
  · intro t hf hne
    unfold TodoRepository.Find
    rw [dbFind_some hf]
    simp [hne]

/-- C2 witness: a store holding an empty-named row 1 and a normal row 2;
id 5 matches nothing, id 1 matches the empty-named row, id 2 succeeds. -/
theorem c2_find_zero_value_semantics_witness :
    (TodoRepository.Find
      { rows := [{ id := 1, name := "", description := "", status := "" },
                 { id := 2, name := "a", description := "", status := "pending" }],
        nextId := 3 } 5).2 = some Err.todoNotFound ∧
    (TodoRepository.Find
      { rows := [{ id := 1, name := "", description := "", status := "" },
                 { id := 2, name := "a", description := "", status := "pending" }],
        nextId := 3 } 1).2 = some Err.todoNotFound ∧
    (TodoRepository.Find
      { rows := [{ id := 1, name := "", description := "", status := "" },
                 { id := 2, name := "a", description := "", status := "pending" }],
        nextId := 3 } 2).2 = none := by
  refine ⟨?_, ?_, ?_⟩
  · exact (c2_find_zero_value_semantics _ 5).1 (by decide)
  · exact (c2_find_zero_value_semantics _ 1).2.1
      { id := 1, name := "", description := "", status := "" } (by decide) (by decide)
  · exact (c2_find_zero_value_semantics _ 2).2.2
      { id := 2, name := "a", description := "", status := "pending" } (by decide) (by decide)

theorem find_id_pos {s : Store} {id : Int} (hwf : s.WF)
    (h : (TodoRepository.Find s id).2 = none) :
    1 ≤ (TodoRepository.Find s id).1.id := by
  obtain ⟨hf, -, -⟩ := find_of_err_none h
  have hmem : (TodoRepository.Find s id).1 ∈ s.rows := List.mem_of_find?_eq_some hf
  exact (hwf.2.1 _ hmem).1

/-- C3: for a todo the handler finds and a body that deserializes, a PUT
with a succeeding write overwrites all three mutable fields wholesale from
the decoded body: the 200 response and the stored row both carry exactly
`name`, `description`, `status` as submitted, with every omitted field the
empty string, never the previous value. -/
theorem c3_update_full_replace (s : Store) (id : Int) (b : TodoBody)
    (hwf : s.WF) (h : (TodoRepository.Find s id).2 = none) :
    (TodoHandler.Update true s (.num id) (some b)).1 =
      { status := 200,
        body := .item
          { id := (TodoRepository.Find s id).1.id
            name := b.name.getD ""
            description := b.description.getD ""
            status := b.status.getD "" } } ∧
    (TodoHandler.Update true s (.num id) (some b)).2.rows =
      s.rows.map (fun t =>
        if t.id == id then
          { id := (TodoRepository.Find s id).1.id
            name := b.name.getD ""
            description := b.description.getD ""
            status := b.status.getD "" }
        else t) := by
  obtain ⟨hf, hid, hn⟩ := find_of_err_none h
  have hpos : 1 ≤ (TodoRepository.Find s id).1.id := find_id_pos hwf h
  obtain ⟨t, ht⟩ : ∃ t, TodoRepository.Find s id = (t, none) :=
    ⟨(TodoRepository.Find s id).1, by rw [← h]⟩
  have ht1 : (TodoRepository.Find s id).1 = t := by rw [ht]
  rw [ht1] at hid hpos
  have htid : (t.id == 0) = false := by
    simp only [beq_eq_false_iff_ne, ne_eq]
    omega
  simp only [TodoHandler.Update, IdParam.atoi, TodoRepository.Save, TodoBody.decode,
    ht, ht1, htid, if_true, Bool.false_eq_true, if_false]
  refine ⟨trivial, ?_⟩
  rw [hid]

/-- C3 witness: updating row 1 with a body omitting `description` makes
the stored description empty. -/
theorem c3_update_full_replace_witness :
    (TodoHandler.Update true
      { rows := [{ id := 1, name := "a", description := "keep", status := "pending" }],
        nextId := 2 }
      (.num 1) (some { name := some "b", description := none, status := some "done" })).2.rows =
      [{ id := 1, name := "b", description := "", status := "done" }] := by
  have h := c3_update_full_replace
    { rows := [{ id := 1, name := "a", description := "keep", status := "pending" }],
      nextId := 2 }
    1 { name := some "b", description := none, status := some "done" }
    (by decide) (by decide)
  rw [h.2]
  decide

/-- C4: for GET /todo/:id on a reachable store, an unparsable id (Atoi
yields 0, which matches no system-assigned id) and a missing todo both
produce a 404 with an error envelope carrying the not-found error and
never any other error kind; a successful find produces 200 with the
found todo. -/
theorem c4_get_handler (s : Store) (id : Int) :
    (s.WF → TodoHandler.Get s IdParam.bad =
      { status := 404, body := .errorEnvelope (some Err.todoNotFound) }) ∧
    ((∀ t ∈ s.rows, t.id ≠ id) → TodoHandler.Get s (.num id) =
      { status := 404, body := .errorEnvelope (some Err.todoNotFound) }) ∧
    ((TodoRepository.Find s id).2 = none → TodoHandler.Get s (.num id) =
      { status := 200, body := .item (TodoRepository.Find s id).1 }) := by
  refine ⟨?_, ?_, ?_⟩
  · intro hwf
    have h0 : ∀ t ∈ s.rows, t.id ≠ (0 : Int) := by
      intro t ht
      have := (hwf.2.1 t ht).1
      omega
    simp [TodoHandler.Get, IdParam.atoi, find_not_found h0]
  · intro h
    simp [TodoHandler.Get, IdParam.atoi, find_not_found h]
  · intro h
    obtain ⟨t, ht⟩ : ∃ t, TodoRepository.Find s id = (t, none) :=
      ⟨(TodoRepository.Find s id).1, by rw [← h]⟩
    have ht1 : (TodoRepository.Find s id).1 = t := by rw [ht]
    simp [TodoHandler.Get, IdParam.atoi, ht, ht1]

/-- C4 witness: on a one-row store, a bad id and a missing id give 404
with the not-found kind, and the present id gives 200 with the row. -/
theorem c4_get_handler_witness :
    TodoHandler.Get
      { rows := [{ id := 1, name := "a", description := "", status := "pending" }],
        nextId := 2 } IdParam.bad =
      { status := 404, body := .errorEnvelope (some Err.todoNotFound) } ∧
    TodoHandler.Get
      { rows := [{ id := 1, name := "a", description := "", status := "pending" }],
        nextId := 2 } (.num 7) =
      { status := 404, body := .errorEnvelope (some Err.todoNotFound) } ∧
    TodoHandler.Get
      { rows := [{ id := 1, name := "a", description := "", status := "pending" }],
        nextId := 2 } (.num 1) =
      { status := 200,
        body := .item { id := 1, name := "a", description := "", status := "pending" } } := by
  refine ⟨?_, ?_, ?_⟩
  · exact (c4_get_handler _ 0).1 (by decide)
  · exact (c4_get_handler _ 7).2.1 (by decide)
  · have h := (c4_get_handler
      { rows := [{ id := 1, name := "a", description := "", status := "pending" }],
        nextId := 2 } 1).2.2 (by decide)
    rw [h]
    decide

/-- C5: with a parseable id, DELETE /todo/:id answers 204 when the
repository delete affects at least one row and 400 when it affects none;
deleting an existing id twice gives 204 then 400. -/
theorem c5_delete_twice (s : Store) (id : Int) :
    (1 ≤ (TodoRepository.Delete s id).1 →
      (TodoHandler.Delete s (.num id)).1.status = 204) ∧
    ((TodoRepository.Delete s id).1 = 0 →
      (TodoHandler.Delete s (.num id)).1.status = 400) ∧
    ((∃ t ∈ s.rows, t.id = id) →
      (TodoHandler.Delete s (.num id)).1.status = 204 ∧
      (TodoHandler.Delete (TodoHandler.Delete s (.num id)).2 (.num id)).1.status = 400) := by
  have hcnt : ∀ u : Store,
      (TodoHandler.Delete u (.num id)).1.status =
        if (u.rows.filter (fun t => t.id == id)).length = 0 then 400 else 204 := by
    intro u
    simp [TodoHandler.Delete, IdParam.atoi, TodoRepository.Delete]
  refine ⟨?_, ?_, ?_⟩
  · intro h
    rw [hcnt]
    have : (s.rows.filter (fun t => t.id == id)).length ≠ 0 := by
      simp only [TodoRepository.Delete] at h
      omega
    simp [this]
  · intro h
    rw [hcnt]
    simp only [TodoRepository.Delete] at h
    simp [h]
  · intro h
    obtain ⟨t, htm, hti⟩ := h
    have hmem : t ∈ s.rows.filter (fun r => r.id == id) := by
      simp [List.mem_filter, htm, hti]
    have hpos : (s.rows.filter (fun r => r.id == id)).length ≠ 0 := by
      intro hz
      rw [List.length_eq_zero] at hz
      rw [hz] at hmem
      simp at hmem
    constructor
    · rw [hcnt]
      simp [hpos]
    · rw [hcnt]
      have hrows : (TodoHandler.Delete s (.num id)).2.rows =
          s.rows.filter (fun t => !(t.id == id)) := by
        simp [TodoHandler.Delete, IdParam.atoi, TodoRepository.Delete]
      rw [hrows, List.filter_filter]
      simp

/-- C5 witness: deleting id 1 of a one-row store twice gives 204 then
400. -/
theorem c5_delete_twice_witness :
    (TodoHandler.Delete
      { rows := [{ id := 1, name := "a", description := "", status := "pending" }],
        nextId := 2 } (.num 1)).1.status = 204 ∧
    (TodoHandler.Delete
      (TodoHandler.Delete
        { rows := [{ id := 1, name := "a", description := "", status := "pending" }],
          nextId := 2 } (.num 1)).2 (.num 1)).1.status = 400 :=
  (c5_delete_twice
    { rows := [{ id := 1, name := "a", description := "", status := "pending" }],
      nextId := 2 } 1).2.2
    ⟨{ id := 1, name := "a", description := "", status := "pending" }, by decide, by decide⟩

/-- C6: POST /todo answers 500 when the body fails to deserialize, 400
when the store rejects the insert, and on a successful insert 200 with the
created todo: its id is the system-assigned next serial value — non-zero
on a reachable store — and the three submitted fields are echoed back
unchanged (omitted ones as the empty string). -/
theorem c6_create_handler (s : Store) (dbOk : Bool) (b : TodoBody) :
    TodoHandler.Create dbOk s none =
      ({ status := 500, body := .errorEnvelope (some Err.bodyParseError) }, s) ∧
    TodoHandler.Create false s (some b) =
      ({ status := 400, body := .errorEnvelope (some Err.writeFailed) }, s) ∧
    (s.WF →
      TodoHandler.Create true s (some b) =
        ({ status := 200,
           body := .item
             { id := s.nextId
               name := b.name.getD ""
               description := b.description.getD ""
               status := b.status.getD "" } },
         { rows := s.rows ++
             [{ id := s.nextId
                name := b.name.getD ""
                description := b.description.getD ""
                status := b.status.getD "" }],
           nextId := s.nextId + 1 }) ∧
      s.nextId ≠ 0) := by
  refine ⟨rfl, rfl, fun hwf => ⟨rfl, ?_⟩⟩
  have := hwf.1
  omega

/-- C6 witness: on the empty store a malformed body gives 500, a rejected
insert gives 400, and a successful insert echoes the fields with id 1. -/
theorem c6_create_handler_witness :
    TodoHandler.Create true Store.empty (some { name := some "Buy milk", description := none, status := some "pending" }) =
      ({ status := 200,
         body := .item { id := 1, name := "Buy milk", description := "", status := "pending" } },
       { rows := [{ id := 1, name := "Buy milk", description := "", status := "pending" }],
         nextId := 2 }) ∧
    Store.empty.nextId ≠ 0 :=
  (c6_create_handler Store.empty true
    { name := some "Buy milk", description := none, status := some "pending" }).2.2 (by decide)

/-- C7: GET /todo always answers 200 and its body is the collection of all
stored todos, the empty collection when the store holds none. -/
theorem c7_getall (s : Store) :
    TodoHandler.GetAll s =
      { status := 200, body := .items (TodoRepository.FindAll s) } ∧
    TodoRepository.FindAll s = s.rows ∧
    (s.rows = [] →
      TodoHandler.GetAll s = { status := 200, body := .items [] }) := by
  refine ⟨rfl, rfl, fun h => ?_⟩
  simp [TodoHandler.GetAll, TodoRepository.FindAll, h]

/-- C7 witness: the empty store answers 200 with the empty collection. -/
theorem c7_getall_witness :
    TodoHandler.GetAll Store.empty = { status := 200, body := .items [] } :=
  (c7_getall Store.empty).2.2 (by decide)

/-- C8: with a parseable id, the DELETE response body is `c.JSON (nil)` —
no payload — in both outcomes, which are exactly 204 and 400. -/
theorem c8_delete_body_null (s : Store) (id : Int) :
    (TodoHandler.Delete s (.num id)).1.body = ResponseBody.null ∧
    ((TodoHandler.Delete s (.num id)).1.status = 204 ∨
      (TodoHandler.Delete s (.num id)).1.status = 400) := by
  refine ⟨rfl, ?_⟩
  by_cases h : ((TodoRepository.Delete s id).1 == 0) = true
  · right
    simp [TodoHandler.Delete, IdParam.atoi, h]
  · left
    simp only [Bool.not_eq_true] at h
    simp [TodoHandler.Delete, IdParam.atoi, h]

/-- C9: a successful PUT answers 200 with an item whose id is exactly the
id of the stored todo it found — only name, description and status come
from the body — and the multiset of ids stored in the table is unchanged
by the update. -/
theorem c9_update_id_immutable (s : Store) (id : Int) (b : TodoBody)
    (hwf : s.WF) (h : (TodoRepository.Find s id).2 = none) :
    (TodoHandler.Update true s (.num id) (some b)).1.status = 200 ∧
    (∃ u, (TodoHandler.Update true s (.num id) (some b)).1.body = .item u ∧
      u.id = (TodoRepository.Find s id).1.id) ∧
    (TodoHandler.Update true s (.num id) (some b)).2.rows.map Todo.id =
      s.rows.map Todo.id := by
  have hpos : 1 ≤ (TodoRepository.Find s id).1.id := find_id_pos hwf h
  obtain ⟨t, ht⟩ : ∃ t, TodoRepository.Find s id = (t, none) :=
    ⟨(TodoRepository.Find s id).1, by rw [← h]⟩
  have ht1 : (TodoRepository.Find s id).1 = t := by rw [ht]
  rw [ht1] at hpos
  have htid : (t.id == 0) = false := by
    simp only [beq_eq_false_iff_ne, ne_eq]
    omega
  simp only [TodoHandler.Update, IdParam.atoi, TodoRepository.Save, TodoBody.decode,
    ht, ht1, htid, Bool.false_eq_true, if_true, if_false]
  refine ⟨trivial, ⟨_, rfl, rfl⟩, ?_⟩
  rw [List.map_map]
  apply List.map_congr_left
  intro r hr
  by_cases hrt : (r.id == t.id) = true
  · simp [Function.comp, hrt, eq_of_beq hrt]
  · simp only [Bool.not_eq_true] at hrt
    simp [Function.comp, hrt]

/-- C9 witness: updating row 1 keeps id 1 in the response and in the
store. -/
theorem c9_update_id_immutable_witness :
    (TodoHandler.Update true
      { rows := [{ id := 1, name := "a", description := "", status := "pending" }],
        nextId := 2 }
      (.num 1) (some { name := some "b", description := some "y", status := some "done" })).2.rows.map Todo.id =
      [{ id := 1, name := "a", description := "", status := "pending" }].map Todo.id :=
  (c9_update_id_immutable
    { rows := [{ id := 1, name := "a", description := "", status := "pending" }],
      nextId := 2 }
    1 { name := some "b", description := some "y", status := some "done" }
    (by decide) (by decide)).2.2

/-- C10: PUT /todo/:id leaves the store untouched on each error exit
before the save: 400 on an unparsable id, 404 when the repository find
fails, and 400 when the body fails to deserialize. -/
theorem c10_update_atomic_on_error (dbOk : Bool) (s : Store) (body : Option TodoBody) :
    TodoHandler.Update dbOk s IdParam.bad body =
      ({ status := 400, body := .errorEnvelope (some Err.atoiError) }, s) ∧
    (∀ n : Int, (TodoRepository.Find s n).2.isSome →
      TodoHandler.Update dbOk s (.num n) body =
        ({ status := 404, body := .errorEnvelope none }, s)) ∧
    (∀ n : Int, (TodoRepository.Find s n).2 = none →
      TodoHandler.Update dbOk s (.num n) none =
        ({ status := 400, body := .errorEnvelope (some Err.bodyParseError) }, s)) := by
  refine ⟨rfl, ?_, ?_⟩
  · intro n hn
    obtain ⟨e, he⟩ := Option.isSome_iff_exists.mp hn
    obtain ⟨t, ht⟩ : ∃ t, TodoRepository.Find s n = (t, some e) :=
      ⟨(TodoRepository.Find s n).1, by rw [← he]⟩
    simp [TodoHandler.Update, IdParam.atoi, ht]
  · intro n hn
    obtain ⟨t, ht⟩ : ∃ t, TodoRepository.Find s n = (t, none) :=
      ⟨(TodoRepository.Find s n).1, by rw [← hn]⟩
    simp [TodoHandler.Update, IdParam.atoi, ht]

/-- C10 witness: on a one-row store, a missing id and a malformed body
each answer an error and leave the rows as they were. -/
theorem c10_update_atomic_on_error_witness :
    TodoHandler.Update true
      { rows := [{ id := 1, name := "a", description := "", status := "pending" }],
        nextId := 2 } (.num 7) (some { name := some "b", description := none, status := none }) =
      ({ status := 404, body := .errorEnvelope none },
       { rows := [{ id := 1, name := "a", description := "", status := "pending" }],
         nextId := 2 }) ∧
    TodoHandler.Update true
      { rows := [{ id := 1, name := "a", description := "", status := "pending" }],
        nextId := 2 } (.num 1) none =
      ({ status := 400, body := .errorEnvelope (some Err.bodyParseError) },
       { rows := [{ id := 1, name := "a", description := "", status := "pending" }],
         nextId := 2 }) :=
  ⟨(c10_update_atomic_on_error true
      { rows := [{ id := 1, name := "a", description := "", status := "pending" }],
        nextId := 2 }
      (some { name := some "b", description := none, status := none })).2.1 7 (by decide),
   (c10_update_atomic_on_error true
      { rows := [{ id := 1, name := "a", description := "", status := "pending" }],
        nextId := 2 } none).2.2 1 (by decide)⟩
